import Mathlib

/-!
Shallow embedding of the CprScraper monitoring pipeline.

The embedding covers, from the repository's sources:
  * `src/monitors/change_detector.py` — `ChangeDetector._calculate_hash` and
    `ChangeDetector.detect_change`;
  * `src/monitors/web_scraper.py` — `WebScraper.get_pdf_hash` (the streaming
    SHA-256 of a downloaded document);
  * `src/scheduler/monitoring_scheduler.py` — `_load_jobs` (cadence → trigger
    mapping) and `_monitor_form_job` (the per-form monitoring cycle with its
    sequence of database commits);
  * `src/notifications/notifier.py` — `_send_email`, `_send_slack_webhook`,
    `_send_teams_webhook`, `send_alert`, `test_notifications`.

Machine integers are modelled as `Nat` with explicit `% 2^32` where the SHA-256
arithmetic wraps.  Bytes are `Nat` values (< 256 for real inputs).  Python
`None` becomes `Option.none`; Python string truthiness (empty string is falsy)
is modelled explicitly.  `datetime.utcnow()` values are abstract `Nat`
timestamps supplied as parameters to each cycle.
-/

namespace CprScraper

/-! Part one: SHA-256 (the `hashlib.sha256` object used by the detector and scraper)

Modelled with the standard incremental interface: a state holding the chain
value, the buffered partial block, and the total length; `sha256Update`
consumes data, compressing every complete 64-byte block as it arrives;
`sha256Final` pads and produces the 32 digest bytes. -/

/-- Addition of 32-bit words, wrapping modulo `2^32`. -/
def add32 (a b : Nat) : Nat := (a + b) % 4294967296

/-- Rotation of a 32-bit word rightwards by `n` bit positions. -/
def rotr32 (n x : Nat) : Nat := ((x >>> n) ||| (x <<< (32 - n))) % 4294967296

/-- Initial SHA-256 hash value (eight 32-bit words). -/
def shaH0 : List Nat :=
  [1779033703, 3144134277, 1013904242, 2773480762,
   1359893119, 2600822924, 528734635, 1541459225]

/-- Round constants of SHA-256 (sixty-four 32-bit words). -/
def shaK : List Nat :=
  [1116352408, 1899447441, 3049323471, 3921009573,
   961987163, 1508970993, 2453635748, 2870763221,
   3624381080, 310598401, 607225278, 1426881987,
   1925078388, 2162078206, 2614888103, 3248222580,
   3835390401, 4022224774, 264347078, 604807628,
   770255983, 1249150122, 1555081692, 1996064986,
   2554220882, 2821834349, 2952996808, 3210313671,
   3336571891, 3584528711, 113926993, 338241895,
   666307205, 773529912, 1294757372, 1396182291,
   1695183700, 1986661051, 2177026350, 2456956037,
   2730485921, 2820302411, 3259730800, 3345764771,
   3516065817, 3600352804, 4094571909, 275423344,
   430227734, 506948616, 659060556, 883997877,
   958139571, 1322822218, 1537002063, 1747873779,
   1955562222, 2024104815, 2227730452, 2361852424,
   2428436474, 2756734187, 3204031479, 3329325298]

/-- Big-endian bytes → 32-bit words. -/
def bytesToWords : List Nat → List Nat
  | b0 :: b1 :: b2 :: b3 :: rest =>
      (((b0 * 256 + b1) * 256 + b2) * 256 + b3) :: bytesToWords rest
  | _ => []

def smallSigma0 (x : Nat) : Nat := rotr32 7 x ^^^ rotr32 18 x ^^^ (x >>> 3)

def smallSigma1 (x : Nat) : Nat := rotr32 17 x ^^^ rotr32 19 x ^^^ (x >>> 10)

def bigSigma0 (x : Nat) : Nat := rotr32 2 x ^^^ rotr32 13 x ^^^ rotr32 22 x

def bigSigma1 (x : Nat) : Nat := rotr32 6 x ^^^ rotr32 11 x ^^^ rotr32 25 x

/-- The next word of the message schedule, from the words produced so far. -/
def nextScheduleWord (w : List Nat) : Nat :=
  let i := w.length
  add32 (add32 (w.getD (i - 16) 0) (smallSigma0 (w.getD (i - 15) 0)))
        (add32 (w.getD (i - 7) 0) (smallSigma1 (w.getD (i - 2) 0)))

/-- Extend the 16 message words by `n` further schedule words. -/
def extendSchedule (w : List Nat) : Nat → List Nat
  | 0 => w
  | n + 1 => extendSchedule (w ++ [nextScheduleWord w]) n

/-- One SHA-256 round: state `[a,b,c,d,e,f,g,h]`, input `(wᵢ, kᵢ)`. -/
def shaRound (st : List Nat) (wk : Nat × Nat) : List Nat :=
  match st with
  | [a, b, c, d, e, f, g, h] =>
      let ch := (e &&& f) ^^^ ((e ^^^ 4294967295) &&& g)
      let temp1 := add32 h (add32 (bigSigma1 e) (add32 ch (add32 wk.2 wk.1)))
      let maj := (a &&& b) ^^^ (a &&& c) ^^^ (b &&& c)
      let temp2 := add32 (bigSigma0 a) maj
      [add32 temp1 temp2, a, b, c, add32 d temp1, e, f, g]
  | other => other

/-- Compress one 64-byte block into the chain value. -/
def shaCompress (h : List Nat) (block : List Nat) : List Nat :=
  let ws := extendSchedule (bytesToWords block) 48
  let st := (ws.zip shaK).foldl shaRound h
  (h.zip st).map (fun p => add32 p.1 p.2)

/-- Feed bytes into the block buffer `cur`, emitting each 64-byte block as it
completes; returns the completed blocks and the final partial block. -/
def sha256Feed : List Nat → List Nat → List (List Nat) × List Nat
  | [], cur => ([], cur)
  | b :: rest, cur =>
    if cur.length = 63 then
      let r := sha256Feed rest []
      ((cur ++ [b]) :: r.1, r.2)
    else
      sha256Feed rest (cur ++ [b])

/-- State of an incremental SHA-256 computation (a `hashlib.sha256()` object):
chain value, buffered partial block, total byte count. -/
structure Sha256State where
  h : List Nat
  buf : List Nat
  len : Nat
deriving DecidableEq

/-- A fresh `hashlib.sha256()` object. -/
def sha256Init : Sha256State := { h := shaH0, buf := [], len := 0 }

/-- Models `hasher.update(data)`: append to the buffer and compress every complete
64-byte block immediately (streaming, no whole-payload buffering). -/
def sha256Update (s : Sha256State) (data : List Nat) : Sha256State :=
  let p := sha256Feed data s.buf
  { h := p.1.foldl shaCompress s.h
    buf := p.2
    len := s.len + data.length }

/-- Big-endian byte expansion of `n` into `c` bytes. -/
def natToBEBytes : Nat → Nat → List Nat
  | 0, _ => []
  | c + 1, n => natToBEBytes c (n >>> 8) ++ [n % 256]

/-- Models `hasher.digest()`: pad (0x80, zeros, 64-bit bit length) and output the
eight chain words as 32 big-endian bytes. -/
def sha256Final (s : Sha256State) : List Nat :=
  let padZeros := (119 - s.len % 64) % 64
  let p := sha256Feed (128 :: (List.replicate padZeros 0 ++ natToBEBytes 8 (s.len * 8))) s.buf
  let hFinal := p.1.foldl shaCompress s.h
  hFinal.foldr (fun w acc => natToBEBytes 4 w ++ acc) []

/-- One-shot digest, `hashlib.sha256(msg).digest()`. -/
def sha256Bytes (msg : List Nat) : List Nat := sha256Final (sha256Update sha256Init msg)

/-- Lower-case hex digit. -/
def hexDigit (n : Nat) : Char := if n < 10 then Char.ofNat (48 + n) else Char.ofNat (87 + n)

/-- Lower-case hex string of a byte list (`hexdigest` output format). -/
def bytesToHex (bs : List Nat) : String :=
  ⟨bs.foldr (fun b acc => hexDigit (b / 16) :: hexDigit (b % 16) :: acc) []⟩

/-- Encoding of one character as UTF-8 bytes (Python `str.encode`, per char). -/
def utf8EncodeChar (c : Char) : List Nat :=
  let n := c.toNat
  if n < 128 then [n]
  else if n < 2048 then [192 + n / 64, 128 + n % 64]
  else if n < 65536 then [224 + n / 4096, 128 + (n / 64) % 64, 128 + n % 64]
  else [240 + n / 262144, 128 + (n / 4096) % 64, 128 + (n / 64) % 64, 128 + n % 64]

/-- Encoding of a string as UTF-8 bytes (Python `content.encode`). -/
def utf8Encode (s : String) : List Nat :=
  s.data.foldr (fun c acc => utf8EncodeChar c ++ acc) []

/-- Models `hashlib.sha256(content.encode(utf8)).hexdigest()` on a string. -/
def sha256HexStr (content : String) : String := bytesToHex (sha256Bytes (utf8Encode content))

/-! Part two: `src/monitors/change_detector.py` — `ChangeDetector` -/

/-- Embeds `ChangeDetector._calculate_hash`: `None` for `None` content, otherwise the
SHA-256 hex digest of the UTF-8 bytes. -/
def calculate_hash : Option String → Option String
  | none => none
  | some content => some (sha256HexStr content)

/-- The change-details dictionary returned by `detect_change`: its `message`
field, plus the `old_hash`/`new_hash` fields present only in the
hash-mismatch branch. -/
structure ChangeDetails where
  message : String
  old_hash : Option String := none
  new_hash : Option String := none
deriving DecidableEq

/-- Embeds `ChangeDetector.detect_change(old_content, new_content)`: returns
`(is_changed, change_details)`; Python `None` is `Option.none`. -/
def detect_change : Option String → Option String → Bool × ChangeDetails
  | none, none =>
      (false, { message := "No content available for comparison." })
  | none, some _ =>
      (true, { message := "New content added." })
  | some _, none =>
      (true, { message := "Content removed." })
  | some o, some n =>
      let old_hash := sha256HexStr o
      let new_hash := sha256HexStr n
      if old_hash ≠ new_hash then
        (true, { message := "Content modified.", old_hash := some old_hash,
                 new_hash := some new_hash })
      else
        (false, { message := "No significant change detected." })

/-! Part three: the severity-classifying detector used by the scheduler

`monitoring_scheduler.py` (line 74) and `main.py` (line 122) call
`self.detector.detect_changes(form, current_content)` and destructure
`(is_changed, change_details, severity)`, but no `detect_changes` method
exists anywhere under the repository sources — only `detect_change` above. -/

/-- Python `pattern in s` (substring containment), over character lists. -/
def occursIn (pat : List Char) : List Char → Bool
  | [] => decide (pat = [])
  | c :: rest => pat.isPrefixOf (c :: rest) || occursIn pat rest

/-- Substring containment on strings. -/
def strContains (s pat : String) : Bool := occursIn pat.data s.data

/-- Modelled from the spec: the caller-side severity classification of §4.2 is
absent from src/ (it would live in the missing `detect_changes`).  "scan
`description`/context for keyword triggers — presence of "critical" ⇒
critical; "major" or "significant" ⇒ high; otherwise default medium." -/
def classify_severity (description : String) : String :=
  if strContains description "critical" then "critical"
  else if strContains description "major" || strContains description "significant" then "high"
  else "medium"

/-- The mutable state of a `Form` row that the monitoring cycle touches
(`src/database/models.py`), plus its identifying fields. -/
structure FormState where
  id : Nat
  name : String
  last_scraped_at : Option Nat
  last_hash : Option String
deriving DecidableEq

/-- Modelled from the spec: `detect_changes(form, current_content)` — the
severity-producing detector method called by the scheduler and `main.py` —
is missing from src/.  Per spec §4.2: the new digest is SHA-256 over the
text's UTF-8 bytes; a null stored digest establishes a baseline
("initial content recorded", no alert); equal digests give "no change";
differing digests give "content hash changed" with `changed = true`;
severity is the keyword classification of the description.  (The
fetch-produced-nothing case is unreachable here: both callers guard the
call with a truthiness test on the scraped content.) -/
def detect_changes (form : FormState) (current_content : String) :
    Bool × String × String :=
  let newDigest := sha256HexStr current_content
  match form.last_hash with
  | none =>
      let description := "initial content recorded"
      (false, description, classify_severity description)
  | some oldDigest =>
      if oldDigest = newDigest then
        let description := "no change"
        (false, description, classify_severity description)
      else
        let description := "content hash changed"
        (true, description, classify_severity description)

/-! Part four: `src/monitors/web_scraper.py` — `WebScraper.get_pdf_hash`

The HTTP response body is modelled as the list of byte chunks that
`response.iter_content(chunk_size=8192)` yields (each at most 8192 bytes on a
real response; the digest equality below holds for any chunking), or `none`
when the request raised.  The hasher is fed one chunk per loop iteration. -/

/-- Embeds `WebScraper.get_pdf_hash`: `None` on a failed download, otherwise the
streamed SHA-256 hex digest of the chunks. -/
def get_pdf_hash (response : Option (List (List Nat))) : Option String :=
  match response with
  | none => none
  | some chunks => some (bytesToHex (sha256Final (chunks.foldl sha256Update sha256Init)))

/-! Part five: `src/scheduler/monitoring_scheduler.py` — `_load_jobs`

The APScheduler trigger built for each form, as a symbolic value. -/

/-- The cron triggers `_load_jobs` constructs. -/
inductive Trigger where
  /-- Models `CronTrigger(hour, minute)` — fires every day at that UTC time. -/
  | cronDaily (hour minute : Nat)
  /-- Models `CronTrigger(day_of_week, hour, minute)` — fires weekly. -/
  | cronWeekly (day_of_week : String) (hour minute : Nat)
  /-- Models `CronTrigger(day, hour, minute)` — fires on that calendar day of
  every month (calendar-month cadence, not a fixed-length interval). -/
  | cronMonthlyDay (day hour minute : Nat)
deriving DecidableEq

/-- The trigger selection of `_load_jobs` for one form's `check_frequency`:
`none` means the branch hits `continue` — the form is skipped, no job is
scheduled for it. -/
def load_jobs_trigger (check_frequency : String) : Option Trigger :=
  if check_frequency = "daily" then some (Trigger.cronDaily 3 0)
  else if check_frequency = "weekly" then some (Trigger.cronWeekly "mon" 3 0)
  else if check_frequency = "monthly" then some (Trigger.cronMonthlyDay 1 3 0)
  else none

/-! Part six: `src/scheduler/monitoring_scheduler.py` — `_monitor_form_job`

One monitoring cycle for one form.  The scraped content is an input (`none`
when `scrape` returned `None`); `datetime.utcnow()` values are the supplied
timestamps `tStart` (start_time), `tNow` (the in-cycle calls), `tEnd`
(end_time).  The job's database effects are modelled as the sequence of
store states made visible by each `session.commit()`, so intermediate
committed states are explicit. -/

/-- A `Change` row as created by the job. -/
structure ChangeRec where
  form_id : Nat
  timestamp : Nat
  change_details : String
  severity : String
  is_reviewed : Bool
deriving DecidableEq

/-- A `MonitoringRun` row as created by the job's `finally` block. -/
structure RunRec where
  timestamp : Nat
  status : String
  duration_seconds : Nat
  forms_checked : Nat
  changes_detected : Nat
deriving DecidableEq

/-- The database state the job reads and writes: the form row, the `changes`
table, and the `monitoring_runs` table. -/
structure StoreState where
  form : FormState
  changes : List ChangeRec
  runs : List RunRec
deriving DecidableEq

/-- Python truthiness of `current_content` (`if current_content:`):
`None` and the empty string are falsy. -/
def pyTruthy : Option String → Bool
  | none => false
  | some s => s ≠ ""

/-- Embeds `_monitor_form_job`, as the sequence of committed store states (one entry
per `session.commit()`, in order).  The last entry is the state the job
leaves behind.  The form-not-found early return and the exception/rollback
path are outside this model; notification dispatch (between the change
commit and the timestamp commit) touches no store state. -/
def monitor_form_job (st : StoreState) (scraped : Option String)
    (tStart tNow tEnd : Nat) : List StoreState :=
  if pyTruthy scraped then
    let content := scraped.getD ""
    let r := detect_changes st.form content
    let runStatus := "success"
    if r.1 then
      -- change_entry added and committed first
      let st1 : StoreState :=
        { st with changes := st.changes ++
            [{ form_id := st.form.id, timestamp := tNow, change_details := r.2.1,
               severity := r.2.2, is_reviewed := false }] }
      -- notifier.send_notification(...) happens here (no store effect)
      let st2 : StoreState :=
        { st1 with form := { st1.form with last_scraped_at := some tNow } }
      let st3 : StoreState :=
        { st2 with runs := st2.runs ++
            [{ timestamp := tStart, status := runStatus, duration_seconds := tEnd - tStart,
               forms_checked := 1, changes_detected := 1 }] }
      [st1, st2, st3]
    else
      let st1 : StoreState :=
        { st with form := { st.form with last_scraped_at := some tNow } }
      let st2 : StoreState :=
        { st1 with runs := st1.runs ++
            [{ timestamp := tStart, status := runStatus, duration_seconds := tEnd - tStart,
               forms_checked := 1, changes_detected := 0 }] }
      [st1, st2]
  else
    -- scrape produced nothing usable: only the finally-block commit happens
    let st1 : StoreState :=
      { st with runs := st.runs ++
          [{ timestamp := tStart, status := "partial_success", duration_seconds := tEnd - tStart,
             forms_checked := 1, changes_detected := 0 }] }
    [st1]

/-- The store state after the job finishes (the last committed state). -/
def monitor_form_job_final (st : StoreState) (scraped : Option String)
    (tStart tNow tEnd : Nat) : StoreState :=
  (monitor_form_job st scraped tStart tNow tEnd).getLastD st

/-! Part seven: `src/notifications/notifier.py` — `Notifier`

Each `_send_*` function is modelled as its return value together with the
list of network operations it performs; `send_alert` and
`test_notifications` tag every operation with its channel.  `os.getenv`
results are fields of `EnvVars`; the outcome of an attempted network call is
the input `netOk` (success or raised exception). -/

/-- Python `a or b` on optional strings (`os.getenv(..) or config.get(..)`):
`None` and `""` are falsy. -/
def pyOrStr (a b : Option String) : Option String :=
  match a with
  | some s => if s = "" then b else some s
  | none => b

/-- Truthiness of an optional string. -/
def truthyStr : Option String → Bool
  | none => false
  | some s => s ≠ ""

/-- Truthiness of an optional number (`smtp_port`): `None` and `0` are falsy. -/
def truthyNat : Option Nat → Bool
  | none => false
  | some n => n ≠ 0

/-- The `email` section of `notification_settings` (missing keys are `none`;
a missing section is the record with `enabled := false` and all fields
empty, matching `.get('email', {})`). -/
structure EmailConfig where
  enabled : Bool
  smtp_server : Option String
  smtp_port : Option Nat
  username : Option String
  password : Option String
  from_address : Option String
  to_addresses : List String
deriving DecidableEq

/-- The `slack`/`teams` sections of `notification_settings`. -/
structure WebhookConfig where
  enabled : Bool
  webhook_url : Option String
  channel : Option String
deriving DecidableEq

/-- Settings record `notification_settings` as loaded by the config loader. -/
structure NotificationSettings where
  email : EmailConfig
  slack : WebhookConfig
  teams : WebhookConfig
deriving DecidableEq

/-- The environment variables the notifier consults. -/
structure EnvVars where
  smtp_username : Option String
  smtp_password : Option String
  from_email : Option String
  slack_webhook_url : Option String
  teams_webhook_url : Option String
deriving DecidableEq

/-- A network operation attempted by the notifier. -/
inductive NetOp where
  /-- Models an `smtplib.SMTP(server, port)` session (starttls, login, sendmail). -/
  | smtpSession (server : String) (port : Nat)
  /-- Models a `requests.post(url, ...)` call. -/
  | httpPost (url : String)
deriving DecidableEq

/-- Embeds `Notifier._send_email`: returns `(result, attempted network operations)`. -/
def send_email (env : EnvVars) (settings : NotificationSettings)
    (to_addresses : List String) (netOk : Bool) : Bool × List NetOp :=
  let cfg := settings.email
  if !cfg.enabled then (false, [])
  else
    let username := pyOrStr env.smtp_username cfg.username
    let password := pyOrStr env.smtp_password cfg.password
    let from_address := pyOrStr env.from_email cfg.from_address
    if !(truthyStr cfg.smtp_server && truthyNat cfg.smtp_port && truthyStr username
         && truthyStr password && truthyStr from_address && !to_addresses.isEmpty) then
      (false, [])
    else
      (netOk, [NetOp.smtpSession (cfg.smtp_server.getD "") (cfg.smtp_port.getD 0)])

/-- Embeds `Notifier._send_slack_webhook`. -/
def send_slack_webhook (env : EnvVars) (settings : NotificationSettings)
    (netOk : Bool) : Bool × List NetOp :=
  let cfg := settings.slack
  if !cfg.enabled then (false, [])
  else
    let webhook_url := pyOrStr env.slack_webhook_url cfg.webhook_url
    if !truthyStr webhook_url then (false, [])
    else (netOk, [NetOp.httpPost (webhook_url.getD "")])

/-- Embeds `Notifier._send_teams_webhook`. -/
def send_teams_webhook (env : EnvVars) (settings : NotificationSettings)
    (netOk : Bool) : Bool × List NetOp :=
  let cfg := settings.teams
  if !cfg.enabled then (false, [])
  else
    let webhook_url := pyOrStr env.teams_webhook_url cfg.webhook_url
    if !truthyStr webhook_url then (false, [])
    else (netOk, [NetOp.httpPost (webhook_url.getD "")])

/-- A notification channel. -/
inductive Channel where
  | email
  | slack
  | teams
deriving DecidableEq

/-- Whether the configuration enables a channel. -/
def channelEnabled (settings : NotificationSettings) : Channel → Bool
  | Channel.email => settings.email.enabled
  | Channel.slack => settings.slack.enabled
  | Channel.teams => settings.teams.enabled

/-- Embeds `Notifier.send_alert`: the channel-tagged network operations attempted.
Email is attempted whenever recipients are configured (`_send_email` itself
checks `enabled`); Slack/Teams only when the section is enabled. -/
def send_alert (env : EnvVars) (settings : NotificationSettings)
    (netOk : Bool) : List (Channel × NetOp) :=
  let to_addresses := settings.email.to_addresses
  (if !to_addresses.isEmpty then
     (send_email env settings to_addresses netOk).2.map (fun op => (Channel.email, op))
   else []) ++
  (if settings.slack.enabled then
     (send_slack_webhook env settings netOk).2.map (fun op => (Channel.slack, op))
   else []) ++
  (if settings.teams.enabled then
     (send_teams_webhook env settings netOk).2.map (fun op => (Channel.teams, op))
   else [])

/-- Embeds `Notifier.test_notifications`: same dispatch structure as `send_alert`
(with warnings, not sends, on the else branches). -/
def test_notifications (env : EnvVars) (settings : NotificationSettings)
    (netOk : Bool) : List (Channel × NetOp) :=
  let email_to_addresses := settings.email.to_addresses
  (if !email_to_addresses.isEmpty then
     (send_email env settings email_to_addresses netOk).2.map (fun op => (Channel.email, op))
   else []) ++
  (if settings.slack.enabled then
     (send_slack_webhook env settings netOk).2.map (fun op => (Channel.slack, op))
   else []) ++
  (if settings.teams.enabled then
     (send_teams_webhook env settings netOk).2.map (fun op => (Channel.teams, op))
   else [])

/-! Part eight: theorems about the embedded program. -/

/-- Feeding a concatenation equals feeding the pieces in sequence, carrying the
partial-block buffer across the boundary. -/
theorem sha256Feed_append (l m : List Nat) : ∀ cur : List Nat,
    sha256Feed (l ++ m) cur =
      ((sha256Feed l cur).1 ++ (sha256Feed m (sha256Feed l cur).2).1,
       (sha256Feed m (sha256Feed l cur).2).2) := by
  induction l with
  | nil => intro cur; simp [sha256Feed]
  | cons b rest ih =>
      intro cur
      by_cases h : cur.length = 63
      · simp [sha256Feed, h, ih]
      · simp [sha256Feed, h, ih]

/-- Two successive updates are one update on the concatenated data. -/
theorem sha256Update_append (s : Sha256State) (a b : List Nat) :
    sha256Update (sha256Update s a) b = sha256Update s (a ++ b) := by
  simp [sha256Update, sha256Feed_append, List.foldl_append, Nat.add_assoc]

/-- Updating with no data is the identity. -/
theorem sha256Update_nil (s : Sha256State) : sha256Update s [] = s := by
  cases s
  simp [sha256Update, sha256Feed]

/-- Folding the update over a chunk list equals one update on the joined data. -/
theorem foldl_sha256Update (cs : List (List Nat)) : ∀ s : Sha256State,
    cs.foldl sha256Update s = sha256Update s cs.flatten := by
  induction cs with
  | nil => intro s; simp [sha256Update_nil]
  | cons c cs ih =>
      intro s
      simp [List.foldl_cons, ih, sha256Update_append]

/-- C8: for every binary document payload and every partition of it into
chunks, the incremental digest computed by updating SHA-256 chunk by chunk
(`get_pdf_hash`'s `iter_content` loop) equals the SHA-256 digest of the whole
payload, so the returned hex digest is a pure function of the document
content, independent of the chunking. -/
theorem get_pdf_hash_chunking_independent (chunks : List (List Nat)) :
    get_pdf_hash (some chunks) = some (bytesToHex (sha256Bytes chunks.flatten)) := by
  simp [get_pdf_hash, sha256Bytes, foldl_sha256Update]

/-- C1 counterexample: on the first observation of a resource (old content
`None`, new content present) `detect_change` reports `changed = true` — the
claim says this must never happen. -/
theorem detect_change_baseline_cex :
    (detect_change none (some "First text")).1 = true := by decide

/-- C1 (amended): for every new representation X, `detect_change` with a null
old content returns `changed = true` with message "New content added." — the
first observation of a resource is itself reported as a change, not a silent
baseline. -/
theorem detect_change_null_old (x : String) :
    detect_change none (some x) = (true, { message := "New content added." }) := rfl

/-- C2 counterexample: with an old content present and a failed fetch (new
content `None`), `detect_change` reports `changed = true` ("Content
removed.") — the claim says a failed fetch is never reported as a change. -/
theorem detect_change_failed_fetch_cex :
    (detect_change (some "old text") none).1 = true := by decide

/-- C2 (amended): for every old content d, `detect_change(d, None)` returns
`changed = true` with message "Content removed."; nevertheless, in the
scheduler's cycle a failed fetch never reaches the detector, and the stored
digest `last_hash` is unchanged across such a cycle. -/
theorem detect_change_null_new_digest_retained (d : String) (st : StoreState)
    (tStart tNow tEnd : Nat) :
    detect_change (some d) none = (true, { message := "Content removed." }) ∧
    (monitor_form_job_final st none tStart tNow tEnd).form.last_hash = st.form.last_hash := by
  refine ⟨rfl, ?_⟩
  simp [monitor_form_job_final, monitor_form_job, pyTruthy]

/-- C10: the change verdict of `detect_change` is symmetric in its two
arguments — content addition, removal, and modification in either direction
produce the same `changed` boolean. -/
theorem detect_change_verdict_symmetric (a b : Option String) :
    (detect_change a b).1 = (detect_change b a).1 := by
  cases a with
  | none => cases b <;> rfl
  | some x =>
      cases b with
      | none => rfl
      | some y =>
          rcases eq_or_ne (sha256HexStr x) (sha256HexStr y) with h | h
          · simp [detect_change, h]
          · simp [detect_change, h, Ne.symm h]

/-- C7 counterexample: on equal non-null contents the verdict is
`changed = false` as claimed, but the description is
"No significant change detected.", not "no change" as the claim states. -/
theorem detect_change_description_cex :
    (detect_change (some "abc") (some "abc")).1 = false ∧
    (detect_change (some "abc") (some "abc")).2.message ≠ "no change" := by decide

/-- C7 (amended): for all non-null old and new contents, `detect_change`
returns `changed = true` exactly when the SHA-256 digests differ; equal
digests give `changed = false` with message "No significant change
detected.", differing digests give `changed = true` with message
"Content modified." and both hex digests in the details. -/
theorem detect_change_hash_verdict (a b : String) :
    detect_change (some a) (some b) =
      (if sha256HexStr a ≠ sha256HexStr b then
         (true, { message := "Content modified.", old_hash := some (sha256HexStr a),
                  new_hash := some (sha256HexStr b) })
       else (false, { message := "No significant change detected." })) ∧
    ((detect_change (some a) (some b)).1 = true ↔ sha256HexStr a ≠ sha256HexStr b) := by
  refine ⟨rfl, ?_⟩
  rcases eq_or_ne (sha256HexStr a) (sha256HexStr b) with h | h <;>
    simp [detect_change, h]

/-- C5 counterexample: a form with an unrecognized `check_frequency` is not
scheduled at all (`_load_jobs` logs a warning and `continue`s, producing no
trigger), whereas the claim says it defaults to a weekly schedule. -/
theorem load_jobs_unknown_cadence_cex :
    load_jobs_trigger "biweekly" = none := by decide

/-- C5 (amended): `_load_jobs` maps `daily` to a cron trigger firing every day
at 03:00 UTC, `weekly` to a cron trigger firing Mondays at 03:00 UTC, and
`monthly` to a cron trigger firing on the 1st of each calendar month at
03:00 UTC (calendar-month cadence, not a fixed 28-day interval); every other
cadence value is skipped with a logged warning — the form is dropped from
scheduling, not defaulted to weekly. -/
theorem load_jobs_trigger_mapping :
    load_jobs_trigger "daily" = some (Trigger.cronDaily 3 0) ∧
    load_jobs_trigger "weekly" = some (Trigger.cronWeekly "mon" 3 0) ∧
    load_jobs_trigger "monthly" = some (Trigger.cronMonthlyDay 1 3 0) ∧
    ∀ f : String, f ≠ "daily" → f ≠ "weekly" → f ≠ "monthly" →
      load_jobs_trigger f = none := by
  refine ⟨rfl, rfl, rfl, ?_⟩
  intro f h1 h2 h3
  simp [load_jobs_trigger, h1, h2, h3]

/-- C5 witness: the mapping theorem applied to the concrete unrecognized
cadence "hourly". -/
theorem load_jobs_trigger_mapping_witness :
    load_jobs_trigger "hourly" = none :=
  load_jobs_trigger_mapping.2.2.2 "hourly" (by decide) (by decide) (by decide)

/-- C6: for every detection, the severity in the result is the keyword
classification of the result's description: a description containing
"critical" gives severity critical; otherwise one containing "major" or
"significant" gives high; otherwise the default is medium. -/
theorem detect_changes_severity_classification (form : FormState) (content : String) :
    (detect_changes form content).2.2 =
      classify_severity (detect_changes form content).2.1 ∧
    (strContains (detect_changes form content).2.1 "critical" = true →
      (detect_changes form content).2.2 = "critical") ∧
    (strContains (detect_changes form content).2.1 "critical" = false →
     (strContains (detect_changes form content).2.1 "major" ||
      strContains (detect_changes form content).2.1 "significant") = true →
      (detect_changes form content).2.2 = "high") ∧
    (strContains (detect_changes form content).2.1 "critical" = false →
     (strContains (detect_changes form content).2.1 "major" ||
      strContains (detect_changes form content).2.1 "significant") = false →
      (detect_changes form content).2.2 = "medium") := by
  have hdesc : (detect_changes form content).2.2 =
      classify_severity (detect_changes form content).2.1 := by
    unfold detect_changes
    cases form.last_hash with
    | none => rfl
    | some oldDigest =>
        by_cases h : oldDigest = sha256HexStr content <;> simp [h]
  refine ⟨hdesc, ?_, ?_, ?_⟩
  · intro h1
    rw [hdesc]
    simp [classify_severity, h1]
  · intro h1 h2
    rw [hdesc]
    simp [classify_severity, h1, h2]
  · intro h1 h2
    rw [hdesc]
    simp only [Bool.or_eq_false_iff] at h2
    simp [classify_severity, h1, h2.1, h2.2]

/-- C6 witness: a first observation produces the description
"initial content recorded", which contains no trigger keyword, so the
classification theorem gives severity "medium". -/
theorem detect_changes_severity_classification_witness :
    (detect_changes { id := 1, name := "WH-347", last_scraped_at := none,
                      last_hash := none } "body").2.2 = "medium" :=
  (detect_changes_severity_classification
      { id := 1, name := "WH-347", last_scraped_at := none, last_hash := none }
      "body").2.2.2 (by decide) (by decide)

/-- C3 counterexample: a cycle whose fetch produced nothing (`scrape` returned
`None`) leaves `last_scraped_at` at its old value `some 5` — the timestamp
does not advance on every cycle, contrary to the claim. -/
theorem monitor_timestamp_cex :
    (monitor_form_job_final
        { form := { id := 1, name := "WH-347", last_scraped_at := some 5,
                    last_hash := some "h" },
          changes := [], runs := [] }
        none 10 11 12).form.last_scraped_at = some 5 := by decide

/-- C3 (amended): a cycle sets `last_scraped_at` to the current time exactly
when the fetch returned non-empty content; on a fetch-failure cycle it is
left unchanged; under a monotone clock the timestamp is therefore
monotonically non-decreasing across cycles, but it does not advance on
fetch-failure cycles. -/
theorem monitor_last_scraped_at_behavior (st : StoreState) (scraped : Option String)
    (tStart tNow tEnd : Nat) :
    (pyTruthy scraped = true →
      (monitor_form_job_final st scraped tStart tNow tEnd).form.last_scraped_at = some tNow) ∧
    (pyTruthy scraped = false →
      (monitor_form_job_final st scraped tStart tNow tEnd).form.last_scraped_at =
        st.form.last_scraped_at) ∧
    (∀ t : Nat, st.form.last_scraped_at = some t → t ≤ tNow →
      ∃ t2 : Nat, (monitor_form_job_final st scraped tStart tNow tEnd).form.last_scraped_at =
        some t2 ∧ t ≤ t2) := by
  have hcases : (monitor_form_job_final st scraped tStart tNow tEnd).form.last_scraped_at =
      (if pyTruthy scraped then some tNow else st.form.last_scraped_at) := by
    unfold monitor_form_job_final monitor_form_job
    by_cases hs : pyTruthy scraped = true
    · by_cases hc : (detect_changes st.form (scraped.getD "")).1 = true <;>
        simp [hs, hc]
    · simp [Bool.not_eq_true] at hs
      simp [hs]
  refine ⟨?_, ?_, ?_⟩
  · intro hs; rw [hcases]; simp [hs]
  · intro hs; rw [hcases]; simp [hs]
  · intro t ht hle
    rw [hcases]
    by_cases hs : pyTruthy scraped = true
    · exact ⟨tNow, by simp [hs], hle⟩
    · simp [Bool.not_eq_true] at hs
      exact ⟨t, by simp [hs, ht], le_refl t⟩

/-- C3 witness: the behavior theorem applied to a concrete fetch-failure
cycle — the stored timestamp `some 7` is untouched. -/
theorem monitor_last_scraped_at_behavior_witness :
    (monitor_form_job_final
        { form := { id := 2, name := "A1-131", last_scraped_at := some 7,
                    last_hash := none },
          changes := [], runs := [] }
        none 20 21 22).form.last_scraped_at = some 7 :=
  (monitor_last_scraped_at_behavior
      { form := { id := 2, name := "A1-131", last_scraped_at := some 7,
                  last_hash := none },
        changes := [], runs := [] }
      none 20 21 22).2.1 rfl

/-- C4 counterexample: in a concrete changed cycle the job produces three
separate commits; the first committed (reader-observable) state already
contains the new change row while `last_scraped_at` still reads its old value
`some 4` — the event append and the digest/timestamp update are not one
atomic transaction. -/
theorem monitor_commit_atomicity_cex :
    monitor_form_job
        { form := { id := 3, name := "CPR", last_scraped_at := some 4,
                    last_hash := some "stale" },
          changes := [], runs := [] }
        (some "x") 10 11 12 =
      [ { form := { id := 3, name := "CPR", last_scraped_at := some 4,
                    last_hash := some "stale" },
          changes := [{ form_id := 3, timestamp := 11,
                        change_details := "content hash changed",
                        severity := "medium", is_reviewed := false }],
          runs := [] },
        { form := { id := 3, name := "CPR", last_scraped_at := some 11,
                    last_hash := some "stale" },
          changes := [{ form_id := 3, timestamp := 11,
                        change_details := "content hash changed",
                        severity := "medium", is_reviewed := false }],
          runs := [] },
        { form := { id := 3, name := "CPR", last_scraped_at := some 11,
                    last_hash := some "stale" },
          changes := [{ form_id := 3, timestamp := 11,
                        change_details := "content hash changed",
                        severity := "medium", is_reviewed := false }],
          runs := [{ timestamp := 10, status := "success", duration_seconds := 2,
                     forms_checked := 1, changes_detected := 1 }] } ] := by decide

/-- C4 (amended): every changed cycle commits three times, in order: first the
appended change row alone (the form row, including `last_scraped_at`, still
holds its old values — and the notification is dispatched between the first
and second commits), then the `last_scraped_at` update, then the run record.
The intermediate states are observable by readers. -/
theorem monitor_commit_sequence (st : StoreState) (content : String)
    (tStart tNow tEnd : Nat) (hne : content ≠ "")
    (hchanged : (detect_changes st.form content).1 = true) :
    monitor_form_job st (some content) tStart tNow tEnd =
      [ { st with
            changes := st.changes ++
              [{ form_id := st.form.id, timestamp := tNow,
                 change_details := (detect_changes st.form content).2.1,
                 severity := (detect_changes st.form content).2.2,
                 is_reviewed := false }] },
        { st with
            changes := st.changes ++
              [{ form_id := st.form.id, timestamp := tNow,
                 change_details := (detect_changes st.form content).2.1,
                 severity := (detect_changes st.form content).2.2,
                 is_reviewed := false }],
            form := { st.form with last_scraped_at := some tNow } },
        { st with
            changes := st.changes ++
              [{ form_id := st.form.id, timestamp := tNow,
                 change_details := (detect_changes st.form content).2.1,
                 severity := (detect_changes st.form content).2.2,
                 is_reviewed := false }],
            form := { st.form with last_scraped_at := some tNow },
            runs := st.runs ++
              [{ timestamp := tStart, status := "success",
                 duration_seconds := tEnd - tStart, forms_checked := 1,
                 changes_detected := 1 }] } ] := by
  have hs : pyTruthy (some content) = true := by simp [pyTruthy, hne]
  unfold monitor_form_job
  simp [hs, hchanged]

/-- C4 witness: the commit-sequence theorem applied to a concrete changed
cycle (stored digest "prev", fetched content "y"). -/
theorem monitor_commit_sequence_witness :
    (monitor_form_job
        { form := { id := 4, name := "A1-131", last_scraped_at := none,
                    last_hash := some "prev" },
          changes := [], runs := [] }
        (some "y") 0 1 2).length = 3 := by
  rw [monitor_commit_sequence
        { form := { id := 4, name := "A1-131", last_scraped_at := none,
                    last_hash := some "prev" },
          changes := [], runs := [] }
        "y" 0 1 2 (by decide) (by decide)]
  rfl

/-- C9: a notification channel whose configuration marks it disabled never
attempts network I/O (no SMTP session, no webhook HTTP POST) during
`send_alert` or `test_notifications`: the list of attempted network
operations contains no operation for that channel. -/
theorem notifier_disabled_no_network (env : EnvVars) (settings : NotificationSettings)
    (netOk : Bool) (c : Channel) (h : channelEnabled settings c = false) :
    (send_alert env settings netOk).filter (fun p => decide (p.1 = c)) = [] ∧
    (test_notifications env settings netOk).filter (fun p => decide (p.1 = c)) = [] := by
  cases c <;>
    simp only [channelEnabled] at h <;>
    simp [send_alert, test_notifications, send_email, send_slack_webhook,
      send_teams_webhook, h, List.filter_append] <;>
    split_ifs <;>
    simp [List.filter_map, Function.comp]

/-- C9 witness: with email disabled (but recipients configured) and Slack
enabled, neither `send_alert` nor `test_notifications` attempts any email
network operation. -/
theorem notifier_disabled_no_network_witness :
    (send_alert ⟨none, none, none, none, none⟩
        ⟨⟨false, some "smtp.example.gov", some 587, some "u", some "p",
          some "noreply@example.gov", ["ops@example.gov"]⟩,
         ⟨true, some "https://hooks.example/slack", some "#alerts"⟩,
         ⟨false, none, none⟩⟩ true).filter
      (fun p => decide (p.1 = Channel.email)) = [] ∧
    (test_notifications ⟨none, none, none, none, none⟩
        ⟨⟨false, some "smtp.example.gov", some 587, some "u", some "p",
          some "noreply@example.gov", ["ops@example.gov"]⟩,
         ⟨true, some "https://hooks.example/slack", some "#alerts"⟩,
         ⟨false, none, none⟩⟩ true).filter
      (fun p => decide (p.1 = Channel.email)) = [] :=
  notifier_disabled_no_network ⟨none, none, none, none, none⟩
    ⟨⟨false, some "smtp.example.gov", some 587, some "u", some "p",
      some "noreply@example.gov", ["ops@example.gov"]⟩,
     ⟨true, some "https://hooks.example/slack", some "#alerts"⟩,
     ⟨false, none, none⟩⟩ true Channel.email (by decide)

end CprScraper
